import Mathlib

set_option maxRecDepth 4000

/-!
Verification development for the Series-diff plugin execution engine.

The definitions below are a shallow embedding of the Python sources:

* `Flask-API/services/plugin_service.py` — static validation of plugin code
  (`validate_plugin_code`) and the validation-then-execution entry point
  (`execute_plugin_code`);
* `Flask-API/services/sandboxed_executor.py` — the `SandboxedExecutor` class:
  `execute` dispatches on Docker availability to `_execute_in_docker` or to the
  in-process fallbacks `_execute_restricted` / `_execute_basic_sandbox`;
* `infra/lambda/plugin_executor/handler.py` — the Lambda run harness `handler`
  and the nearest-timestamp alignment helper `get_aligned_data` (the identical
  pipeline also appears in `Flask-API/services/metric_service.py`).

Python-runtime effects that a pure embedding cannot execute (the outcome of
`subprocess.run`, of `exec` on user code, of calling the user `calculate`
function, of `compile`, of `json.loads`, of `pd.to_datetime` on one timestamp
string) are passed in explicitly as oracle parameters or environment records;
every branch on those outcomes is translated directly from the source.
-/

/-- Python values that can flow out of a plugin `calculate` call.  Python and
numpy floats are modelled exactly as rationals (they are only passed through,
never computed with, in the embedded code). -/
inductive PyVal where
  | pyInt (n : Int)
  | pyFloat (q : Rat)
  | npInt (n : Int)
  | npFloat (q : Rat)
  | pyStr (s : String)
  | pyNone
deriving DecidableEq, Repr

/-- Truth value of Python `isinstance(v, (int, float))`.  A numpy floating
scalar subclasses Python `float`, so it passes; a numpy integer scalar does not
subclass Python `int`. -/
def PyVal.isIntOrFloatInstance : PyVal → Bool
  | .pyInt _ => true
  | .pyFloat _ => true
  | .npFloat _ => true
  | _ => false

/-- Truth value of Python `isinstance(v, (np.integer, np.floating))`. -/
def PyVal.isNpNumber : PyVal → Bool
  | .npInt _ => true
  | .npFloat _ => true
  | _ => false

/-- Python `float(v)` on the numeric values the embedded code applies it to. -/
def PyVal.toPyFloat : PyVal → PyVal
  | .pyInt n => .pyFloat (n : Rat)
  | .pyFloat q => .pyFloat q
  | .npInt n => .pyFloat (n : Rat)
  | .npFloat q => .pyFloat q
  | v => v

/-- Recognizer for a plain Python float. -/
def PyVal.isPyFloat : PyVal → Bool
  | .pyFloat _ => true
  | _ => false

/-- Python `type(v).__name__` for the embedded values. -/
def PyVal.typeName : PyVal → String
  | .pyInt _ => "int"
  | .pyFloat _ => "float"
  | .npInt _ => "int64"
  | .npFloat _ => "float64"
  | .pyStr _ => "str"
  | .pyNone => "NoneType"

/-- A time series as it travels through the engine: a JSON object mapping
timestamp strings to numbers, in insertion order (Python `dict`). -/
abbrev SeriesD := List (String × Rat)

/-- Python `str.lower()` (ASCII case folding, which is all the embedded code
meets), computed on the character list so that it evaluates by reduction. -/
def strToLower (s : String) : String :=
  ⟨s.data.map Char.toLower⟩

/-- Python whitespace as recognized by `str.strip()`. -/
def isPyWs (c : Char) : Bool :=
  c == ' ' || c == '\t' || c == '\n' || c == '\r' || c == '\x0b' || c == '\x0c'

/-- Python `str.strip()`: drop leading and trailing whitespace. -/
def pyStrip (s : String) : String :=
  ⟨((s.data.dropWhile isPyWs).reverse.dropWhile isPyWs).reverse⟩

/-- Python slicing `s[:n]` on a string. -/
def pyTake (s : String) (n : Nat) : String :=
  ⟨s.data.take n⟩

/-- Helper for `containsSubstr`: does `needle` occur as a contiguous sublist? -/
def charsContain (needle : List Char) : List Char → Bool
  | [] => needle.isEmpty
  | c :: cs => List.isPrefixOf needle (c :: cs) || charsContain needle cs

/-- Python `needle in haystack` on strings: contiguous-substring test. -/
def containsSubstr (needle haystack : String) : Bool :=
  charsContain needle.data haystack.data

/-- The `dangerous_patterns` denylist.  The very same list literal appears in
`plugin_service.validate_plugin_code` and in
`SandboxedExecutor._execute_basic_sandbox`. -/
def dangerous_patterns : List String :=
  [ "open(", "open (", "file(", "with open",
    "import os", "from os", "import sys", "from sys",
    "import subprocess", "from subprocess", "import shutil", "from shutil",
    "import socket", "from socket", "import requests", "from requests",
    "import urllib", "from urllib",
    "exec(", "exec (", "eval(", "eval (", "__import__", "importlib",
    "__class__", "__bases__", "__subclasses__", "__globals__",
    "__code__", "__builtins__",
    "os.system", "os.popen", "subprocess.", "commands.", "popen" ]

/-- Return value of `validate_plugin_code`: the Python dict
with a `valid` flag and an optional `error` message. -/
structure ValidationResult where
  valid : Bool
  error : Option String
deriving DecidableEq, Repr

/-- Denylist rejection message of `validate_plugin_code`. -/
def forbiddenDetectedMsg (p : String) : String :=
  "Forbidden pattern detected: \x27" ++ p ++
    "\x27. Plugins cannot access system resources."

/-- Missing-entry-point message of `validate_plugin_code`. -/
def missingEntryMsg : String :=
  "Plugin must define a \x27calculate(series1, series2)\x27 function"

/-- Syntax-error message of `validate_plugin_code`; `e` is the text of the
Python `SyntaxError`. -/
def syntaxErrorMsg (e : String) : String :=
  "Syntax error in plugin code: " ++ e

/-- Embedding of `plugin_service.validate_plugin_code`.  `pyCompile` is the
oracle for Python `compile(code, "<plugin>", "exec")`: `none` when the code
compiles, `some e` when it raises `SyntaxError e`.  The source first scans the
denylist (case-insensitively, first match wins), then requires the literal
`def calculate(` to occur, then compiles. -/
def validate_plugin_code (pyCompile : String → Option String)
    (code : String) : ValidationResult :=
  match dangerous_patterns.find?
      (fun p => containsSubstr (strToLower p) (strToLower code)) with
  | some p => ⟨false, some (forbiddenDetectedMsg p)⟩
  | none =>
    if containsSubstr ("def calculate(") code = false then
      ⟨false, some missingEntryMsg⟩
    else
      match pyCompile code with
      | some e => ⟨false, some (syntaxErrorMsg e)⟩
      | none => ⟨true, none⟩

/-- An uncaught Python exception escaping a call. -/
structure PyExn where
  msg : String
deriving DecidableEq, Repr

/-- A value returned by an executor: a `result` dict, an `error` dict, or the
JSON document parsed from a container's standard output (kept as the text that
was parsed). -/
inductive PyOut where
  | resultDict (v : PyVal)
  | errorDict (msg : String)
  | parsedJson (doc : String)
deriving DecidableEq, Repr

/-- Outcome of a Python `exec` of plugin source text. -/
inductive ExecOutcome where
  | raised (msg : String)
  | ok
deriving DecidableEq, Repr

/-- Outcome of invoking the user `calculate` callable. -/
inductive CallOutcome where
  | raised (msg : String)
  | returns (v : PyVal)
deriving DecidableEq, Repr

/-- Result object of a completed `subprocess.run` call. -/
structure DockerRunResult where
  returncode : Int
  stdout : String
  stderr : String
deriving DecidableEq, Repr

/-- Outcome of the `subprocess.run` call that spawns the Docker container:
normal completion, `subprocess.TimeoutExpired`, or any other exception
(e.g. `FileNotFoundError` when the binary is missing). -/
inductive SubprocessOutcome where
  | completed (r : DockerRunResult)
  | timeoutExpired
  | raised (msg : String)
deriving DecidableEq, Repr

/-- Environment of one `_execute_in_docker` call: the outcome of the spawn,
the outcome of `os.unlink` on the temporary executor script in the `finally`
block (`none` = removed fine, `some e` = raised `e`), and an oracle telling
which strings `json.loads` accepts.  Creation of the temporary file itself is
modelled as succeeding. -/
structure DockerEnv where
  runOutcome : SubprocessOutcome
  unlinkError : Option String
  jsonParseOk : String → Bool

/-- The `TIMEOUT_SECONDS` class constant. -/
def TIMEOUT_SECONDS : Nat := 30

/-- Timeout message produced when `subprocess.TimeoutExpired` is caught. -/
def timeoutMsg : String :=
  "Execution timed out after " ++ toString TIMEOUT_SECONDS ++ " seconds"

/-- The `try`/`except` body of `SandboxedExecutor._execute_in_docker`: branch
on the spawn outcome exactly as the source does.  On completion, a non-zero
exit with non-empty stripped stderr is mapped to `Execution failed`; otherwise
the stripped stdout is required to be non-empty and JSON-parseable. -/
def dockerTryBody (env : DockerEnv) : PyOut :=
  match env.runOutcome with
  | .timeoutExpired => .errorDict timeoutMsg
  | .raised e => .errorDict ("Execution error: " ++ e)
  | .completed r =>
    if r.returncode ≠ 0 ∧ (pyStrip r.stderr) ≠ "" then
      .errorDict ("Execution failed: " ++ (pyTake (pyStrip r.stderr) 200))
    else if (pyStrip r.stdout) = "" then
      .errorDict ("No output from plugin")
    else if env.jsonParseOk (pyStrip r.stdout) then
      .parsedJson (pyStrip r.stdout)
    else
      .errorDict ("Invalid plugin output: " ++ (pyTake (pyStrip r.stdout) 200))

/-- Embedding of `SandboxedExecutor._execute_in_docker`.  Every exception from
the `try` body is caught and converted to an error dict (see `dockerTryBody`),
but the `finally` block then runs `os.unlink(executor_path)`; if that raises,
the exception replaces the produced return value and escapes.  The code and the
two series are only serialized onto the container's stdin, so they do not
influence the embedded control flow beyond the oracle. -/
def SandboxedExecutor._execute_in_docker (env : DockerEnv) (_code : String)
    (_series1 _series2 : SeriesD) : Except PyExn PyOut :=
  match env.unlinkError with
  | none => .ok (dockerTryBody env)
  | some e => .error ⟨e⟩

/-- Environment of one in-process fallback execution: availability of the
`RestrictedPython` import, the outcome of `compile_restricted` (`none` =
compiled, `some e` = `SyntaxError e`), of executing the compiled plugin body,
whether it bound `calculate`, and the outcome of calling it — plus the same
data for the non-RestrictedPython basic path. -/
structure RestrictedEnv where
  restrictedPythonAvailable : Bool
  compileSyntaxError : Option String
  execOutcome : ExecOutcome
  definesCalculate : Bool
  callOutcome : CallOutcome
  basicExecOutcome : ExecOutcome
  basicDefinesCalculate : Bool
  basicCallOutcome : CallOutcome

/-- Embedding of `SandboxedExecutor._execute_basic_sandbox`: in-process
execution guarded only by the denylist scan, the `def calculate(` check, a
safe-builtins namespace (folded into the exec oracle), and per-step
`try`/`except`.  Note that it executes the untrusted code in the calling
process and returns the plugin's own result on success. -/
def SandboxedExecutor._execute_basic_sandbox (env : RestrictedEnv)
    (code : String) (_series1 _series2 : SeriesD) : PyOut :=
  match dangerous_patterns.find?
      (fun p => containsSubstr (strToLower p) (strToLower code)) with
  | some p =>
    .errorDict ("Forbidden pattern: \x27" ++ p ++
      "\x27. Plugins cannot access system resources.")
  | none =>
    if containsSubstr ("def calculate(") code = false then
      .errorDict ("Plugin must define \x27calculate(series1, series2)\x27 function")
    else
      match env.basicExecOutcome with
      | .raised e => .errorDict ("Execution error: " ++ e)
      | .ok =>
        if env.basicDefinesCalculate = false then
          .errorDict ("Plugin must define \x27calculate\x27 function")
        else
          match env.basicCallOutcome with
          | .raised e => .errorDict ("Calculation error: " ++ e)
          | .returns v =>
            if v.isIntOrFloatInstance then .resultDict v.toPyFloat
            else .errorDict ("Result must be number, got " ++ v.typeName)

/-- Embedding of `SandboxedExecutor._execute_restricted`: if the
`RestrictedPython` import fails it falls through to the basic sandbox,
otherwise it compiles with `compile_restricted` and executes in-process in a
restricted namespace.  Both paths run the untrusted code in the calling
process; every failure there is caught and returned as an error dict. -/
def SandboxedExecutor._execute_restricted (env : RestrictedEnv) (code : String)
    (series1 series2 : SeriesD) : PyOut :=
  if env.restrictedPythonAvailable = false then
    SandboxedExecutor._execute_basic_sandbox env code series1 series2
  else
    match env.compileSyntaxError with
    | some e => .errorDict ("Syntax error: " ++ e)
    | none =>
      match env.execOutcome with
      | .raised e => .errorDict ("Execution error: " ++ e)
      | .ok =>
        if env.definesCalculate = false then
          .errorDict ("Plugin must define \x27calculate\x27 function")
        else
          match env.callOutcome with
          | .raised e => .errorDict ("Calculation error: " ++ e)
          | .returns v =>
            if v.isIntOrFloatInstance then .resultDict v.toPyFloat
            else .errorDict ("Result must be a number, got " ++ v.typeName)

/-- State of a constructed `SandboxedExecutor`: the result of the
`docker version` probe performed in `__init__`. -/
structure ExecutorState where
  docker_available : Bool

/-- Embedding of `SandboxedExecutor.execute`: dispatch on the probe result —
Docker path when available, otherwise the in-process restricted fallback
(which never raises, so its value is returned directly). -/
def SandboxedExecutor.execute (st : ExecutorState) (denv : DockerEnv)
    (renv : RestrictedEnv) (code : String) (series1 series2 : SeriesD) :
    Except PyExn PyOut :=
  if st.docker_available then
    SandboxedExecutor._execute_in_docker denv code series1 series2
  else
    .ok (SandboxedExecutor._execute_restricted renv code series1 series2)

/-- Embedding of `plugin_service.execute_plugin_code`: validate first; an
invalid result is returned as an error dict without touching the executor;
otherwise the singleton executor's `execute` is invoked (passed here as the
`executor` argument; the dict conversions of the two series are identities in
this model since `SeriesD` already is the dict form). -/
def execute_plugin_code (pyCompile : String → Option String)
    (executor : String → SeriesD → SeriesD → Except PyExn PyOut)
    (code : String) (series1 series2 : SeriesD) : Except PyExn PyOut :=
  let validation := validate_plugin_code pyCompile code
  if validation.valid = false then
    .ok (.errorDict (validation.error.getD ("")))
  else
    executor code series1 series2

/-- One element of the `pairs` list handed to the Lambda handler.  `key` is
read with `pair.get("key")`, hence optional. -/
structure Pair where
  series1 : SeriesD
  series2 : SeriesD
  key : Option String
deriving DecidableEq, Repr

/-- One element of the handler's `results` list: the dict carries `key`
together with either a `result` value or an `error` message. -/
structure ResultEntry where
  key : Option String
  result : Option PyVal
  error : Option String
deriving DecidableEq, Repr

/-- Return value of the Lambda handler: a `results` list or a top-level
`error`. -/
inductive HandlerOut where
  | results (rs : List ResultEntry)
  | error (msg : String)
deriving DecidableEq, Repr

/-- The per-pair loop body of `handler`: build the two `pd.Series`, call
`calculate`, convert numpy scalar results to native floats, and record
`result` — catching any exception of this one pair as its `error` entry.
`calcFn` is the oracle for the user callable on this pair's data. -/
def perPairEval (calcFn : Pair → CallOutcome) (pair : Pair) : ResultEntry :=
  match calcFn pair with
  | .raised e => ⟨pair.key, none, some e⟩
  | .returns v =>
    ⟨pair.key, some (if v.isNpNumber then v.toPyFloat else v), none⟩

/-- Embedding of `infra/lambda/plugin_executor/handler.handler` after the
event fields are read: `execOut` is the outcome of `exec(plugin_code,
namespace)` (a raise is caught by the top-level handler and reported as the
formatted traceback text), `definesCalculate` tells whether the exec bound
`calculate`, and `calcFn` evaluates that callable per pair. -/
def handler (execOut : ExecOutcome) (definesCalculate : Bool)
    (calcFn : Pair → CallOutcome) (_code : String) (pairs : List Pair) :
    HandlerOut :=
  match execOut with
  | .raised tb => .error tb
  | .ok =>
    if definesCalculate = false then
      .error ("Plugin must define \x27calculate\x27 function")
    else
      .results (pairs.map (perPairEval calcFn))

/-- Keep only the first row for each timestamp, mirroring
`df[~df.index.duplicated(keep="first")]`; `seen` accumulates the timestamps
already kept. -/
def dedupKeepFirst : List (Int × Rat) → List Int → List (Int × Rat)
  | [], _ => []
  | row :: rest, seen =>
    if row.1 ∈ seen then dedupKeepFirst rest seen
    else row :: dedupKeepFirst rest (row.1 :: seen)

/-- Build one side's frame: parse every timestamp key with the `toDT` oracle
(for `pd.to_datetime`; time points are modelled as integers), sort by time
(`sort_index`; order among equal times is taken as stable), and drop duplicate
timestamps keeping the first row. -/
def seriesFrame (toDT : String → Int) (s : SeriesD) : List (Int × Rat) :=
  dedupKeepFirst
    (List.insertionSort (fun a b : Int × Rat => a.1 ≤ b.1)
      (s.map (fun kv => (toDT kv.1, kv.2)))) []

/-- Consecutive differences `index[1:] - index[:-1]` of a time index. -/
def consecDiffs (ts : List Int) : List Int :=
  List.zipWith (fun b a => b - a) ts.tail ts

/-- Median in the pandas sense: middle element of the sorted values for an odd
count, mean of the two middle elements for an even count. -/
def medianRat (l : List Int) : Rat :=
  let s := List.insertionSort (fun a b : Int => a ≤ b) l
  if s.length % 2 = 1 then ((s.getD (s.length / 2) 0 : Int) : Rat)
  else (((s.getD (s.length / 2 - 1) 0 : Int) : Rat) +
        ((s.getD (s.length / 2) 0 : Int) : Rat)) / 2

/-- Maximum of a non-empty list of tolerances, as `max(deltas)`. -/
def maxRat (d : Rat) (ds : List Rat) : Rat := ds.foldl max d

/-- The automatically derived tolerance candidates: the median consecutive
gap of each index that has more than one point, in that order. -/
def autoDeltas (df1 df2 : List (Int × Rat)) : List Rat :=
  (if 1 < df1.length then [medianRat (consecDiffs (df1.map Prod.fst))] else [])
    ++
  (if 1 < df2.length then [medianRat (consecDiffs (df2.map Prod.fst))] else [])

/-- Nearest right-hand row within tolerance for one left timestamp, as
`pd.merge_asof(..., direction="nearest", tolerance=...)` computes it; with the
right frame sorted ascending, an exact distance tie keeps the earlier
(backward) row. -/
def nearestWithin (tol : Rat) (t : Int) (right : List (Int × Rat)) :
    Option (Int × Rat) :=
  right.foldl
    (fun best cand =>
      if (((cand.1 - t).natAbs : Int) : Rat) ≤ tol then
        match best with
        | none => some cand
        | some b =>
          if (cand.1 - t).natAbs < (b.1 - t).natAbs then some cand else some b
      else best)
    none

/-- The `merge_asof` + `dropna` step: each left row paired with its nearest
right value within tolerance; rows without a match are dropped. -/
def mergeAsofNearestDropna (left right : List (Int × Rat)) (tol : Rat) :
    List (Int × Rat × Rat) :=
  left.filterMap
    (fun row => (nearestWithin tol row.1 right).map (fun m => (row.1, row.2, m.2)))

/-- Embedding of `get_aligned_data` (identical in
`infra/lambda/plugin_executor/handler.py` and
`Flask-API/services/metric_service.py`): build both deduplicated sorted
frames; with `tolerance=None`, derive the tolerance as the maximum of the
median consecutive gaps of the indexes that have more than one point — if
neither does, return the empty frame — then merge as-of nearest and drop
unmatched rows.  An explicit tolerance is modelled as the already-parsed
`pd.Timedelta` integer value. -/
def get_aligned_data (toDT : String → Int) (series1 series2 : SeriesD)
    (tolerance : Option Int) : List (Int × Rat × Rat) :=
  match tolerance with
  | some tol =>
    mergeAsofNearestDropna (seriesFrame toDT series1) (seriesFrame toDT series2)
      ((tol : Int) : Rat)
  | none =>
    match autoDeltas (seriesFrame toDT series1) (seriesFrame toDT series2) with
    | [] => []
    | d :: ds =>
      mergeAsofNearestDropna (seriesFrame toDT series1)
        (seriesFrame toDT series2) (maxRat d ds)

/-- A per-pair result slot always carries the key of its own pair. -/
theorem perPairEval_key (calcFn : Pair → CallOutcome) (p : Pair) :
    (perPairEval calcFn p).key = p.key := by
  cases h : calcFn p <;> simp [perPairEval, h]

/-- A per-pair result slot carries exactly one of `result` and `error`. -/
theorem perPairEval_exactlyOne (calcFn : Pair → CallOutcome) (p : Pair) :
    (((perPairEval calcFn p).result.isSome &&
        (perPairEval calcFn p).error.isNone) ||
      ((perPairEval calcFn p).result.isNone &&
        (perPairEval calcFn p).error.isSome)) = true := by
  cases h : calcFn p <;> simp [perPairEval, h]

/-- Two strings with different first characters are different. -/
theorem strNeOfHead (s t : String) (h : s.data.head? ≠ t.data.head?) :
    s ≠ t := by
  intro he
  exact h (by rw [he])

/-- C2: a batch accepted for execution (the exec of the plugin code succeeded
and bound `calculate`) yields a `results` list of the same length as `pairs`,
whose i-th entry carries the i-th pair's key: results preserve the input pair
order.  The handler builds `results` as a `map` of the per-pair evaluator over
`pairs`, so the correspondence is positional. -/
theorem handler_batch_length_and_keys (calcFn : Pair → CallOutcome)
    (code : String) (pairs : List Pair) (i : Nat) (hi : i < pairs.length) :
    handler .ok true calcFn code pairs
      = .results (pairs.map (perPairEval calcFn)) ∧
    (pairs.map (perPairEval calcFn)).length = pairs.length ∧
    ((pairs.map (perPairEval calcFn)).get ⟨i, by simpa using hi⟩).key
      = (pairs.get ⟨i, hi⟩).key := by
  refine ⟨rfl, by simp, ?_⟩
  simp [List.get_eq_getElem, List.getElem_map, perPairEval_key]

/-- Witness for C2 at a concrete two-pair batch. -/
theorem handler_batch_length_and_keys_witness :
    (0 : Nat) < ([⟨[("t1", 5)], [("t1", 2)], some ("a|b")⟩,
                  ⟨[("t2", 1)], [("t2", 4)], some ("c|d")⟩] : List Pair).length ∧
    (handler .ok true (fun _ => .returns (.pyFloat 3)) ("c")
        [⟨[("t1", 5)], [("t1", 2)], some ("a|b")⟩,
         ⟨[("t2", 1)], [("t2", 4)], some ("c|d")⟩]
      = .results ([⟨[("t1", 5)], [("t1", 2)], some ("a|b")⟩,
                   ⟨[("t2", 1)], [("t2", 4)], some ("c|d")⟩].map
          (perPairEval (fun _ => .returns (.pyFloat 3)))) ∧
    ([⟨[("t1", 5)], [("t1", 2)], some ("a|b")⟩,
      ⟨[("t2", 1)], [("t2", 4)], some ("c|d")⟩].map
        (perPairEval (fun _ => .returns (.pyFloat 3)))).length
      = ([⟨[("t1", 5)], [("t1", 2)], some ("a|b")⟩,
          ⟨[("t2", 1)], [("t2", 4)], some ("c|d")⟩] : List Pair).length ∧
    (([⟨[("t1", 5)], [("t1", 2)], some ("a|b")⟩,
       ⟨[("t2", 1)], [("t2", 4)], some ("c|d")⟩].map
        (perPairEval (fun _ => .returns (.pyFloat 3)))).get
          ⟨0, by simpa using (by decide : (0:Nat) < 2)⟩).key
      = (([⟨[("t1", 5)], [("t1", 2)], some ("a|b")⟩,
           ⟨[("t2", 1)], [("t2", 4)], some ("c|d")⟩] : List Pair).get
          ⟨0, by decide⟩).key) :=
  ⟨by decide,
   handler_batch_length_and_keys (fun _ => .returns (.pyFloat 3)) ("c")
     [⟨[("t1", 5)], [("t1", 2)], some ("a|b")⟩,
      ⟨[("t2", 1)], [("t2", 4)], some ("c|d")⟩] 0 (by decide)⟩

/-- C3: if `calculate` raises on pair `i`, that pair's slot records its key
together with the error message, the batch still has one slot per pair, and —
because `results` is a pointwise `map` over `pairs` — every other slot is the
evaluation of its own pair, unaffected by the failure. -/
theorem handler_pair_error_isolated (calcFn : Pair → CallOutcome)
    (code : String) (pairs : List Pair) (i : Nat) (hi : i < pairs.length)
    (msg : String) (hraise : calcFn (pairs.get ⟨i, hi⟩) = .raised msg) :
    handler .ok true calcFn code pairs
      = .results (pairs.map (perPairEval calcFn)) ∧
    (pairs.map (perPairEval calcFn)).get ⟨i, by simpa using hi⟩
      = ⟨(pairs.get ⟨i, hi⟩).key, none, some msg⟩ ∧
    (pairs.map (perPairEval calcFn)).length = pairs.length := by
  refine ⟨rfl, ?_, by simp⟩
  simp only [List.get_eq_getElem] at hraise ⊢
  simp [List.getElem_map, perPairEval, hraise]

/-- Witness for C3: a two-pair batch where the first pair raises and the
second still evaluates. -/
theorem handler_pair_error_isolated_witness :
    (fun p : Pair => if p.key = some ("a|b") then CallOutcome.raised ("boom")
        else CallOutcome.returns (.pyFloat 2))
      (([⟨[], [], some ("a|b")⟩, ⟨[], [], some ("c|d")⟩] : List Pair).get
        ⟨0, by decide⟩) = .raised ("boom") ∧
    (handler .ok true
        (fun p : Pair => if p.key = some ("a|b") then CallOutcome.raised ("boom")
          else CallOutcome.returns (.pyFloat 2)) ("c")
        [⟨[], [], some ("a|b")⟩, ⟨[], [], some ("c|d")⟩]
      = .results ([⟨[], [], some ("a|b")⟩, ⟨[], [], some ("c|d")⟩].map
          (perPairEval (fun p : Pair =>
            if p.key = some ("a|b") then CallOutcome.raised ("boom")
            else CallOutcome.returns (.pyFloat 2)))) ∧
    ([⟨[], [], some ("a|b")⟩, ⟨[], [], some ("c|d")⟩].map
        (perPairEval (fun p : Pair =>
          if p.key = some ("a|b") then CallOutcome.raised ("boom")
          else CallOutcome.returns (.pyFloat 2)))).get
        ⟨0, by simpa using (by decide : (0:Nat) < 2)⟩
      = ⟨(([⟨[], [], some ("a|b")⟩, ⟨[], [], some ("c|d")⟩] : List Pair).get
            ⟨0, by decide⟩).key, none, some ("boom")⟩ ∧
    ([⟨[], [], some ("a|b")⟩, ⟨[], [], some ("c|d")⟩].map
        (perPairEval (fun p : Pair =>
          if p.key = some ("a|b") then CallOutcome.raised ("boom")
          else CallOutcome.returns (.pyFloat 2)))).length
      = ([⟨[], [], some ("a|b")⟩, ⟨[], [], some ("c|d")⟩] : List Pair).length) :=
  ⟨by decide,
   handler_pair_error_isolated
     (fun p : Pair => if p.key = some ("a|b") then CallOutcome.raised ("boom")
       else CallOutcome.returns (.pyFloat 2)) ("c")
     [⟨[], [], some ("a|b")⟩, ⟨[], [], some ("c|d")⟩] 0 (by decide) ("boom")
     (by decide)⟩

/-- C6 counterexample: `calculate` returning the Python int `3` (a numeric
value) is recorded unchanged as an int, not coerced to a plain float — the
handler only converts numpy scalars (`np.integer`/`np.floating`) via
`float(...)`.  This refutes the claim that every numeric return value is
recorded as a plain floating-point number. -/
theorem handler_int_not_coerced_counterexample :
    handler .ok true (fun _ => .returns (.pyInt 3)) ("c")
      [⟨[("t1", 5)], [("t1", 2)], some ("a|b")⟩]
      = .results [⟨some ("a|b"), some (.pyInt 3), none⟩] ∧
    (PyVal.pyInt 3).isPyFloat = false :=
  ⟨rfl, rfl⟩

/-- C6 (amended): every `results` entry carries its pair's key and exactly one
of `result`/`error`; a numpy numeric return value (np.integer or np.floating)
is coerced to a plain float, while native Python numbers are recorded
unchanged. -/
theorem handler_entry_shape (calcFn : Pair → CallOutcome) (code : String)
    (pairs : List Pair) (p : Pair) (v : PyVal)
    (hv : calcFn p = .returns v) (hnp : v.isNpNumber = true) :
    handler .ok true calcFn code pairs
      = .results (pairs.map (perPairEval calcFn)) ∧
    (pairs.map (perPairEval calcFn)).all
      (fun e => (e.result.isSome && e.error.isNone) ||
        (e.result.isNone && e.error.isSome)) = true ∧
    ((pairs.map (perPairEval calcFn)).map (fun e => e.key))
      = pairs.map (fun q => q.key) ∧
    (perPairEval calcFn p).result = some v.toPyFloat ∧
    v.toPyFloat.isPyFloat = true := by
  refine ⟨rfl, ?_, ?_, ?_, ?_⟩
  · rw [List.all_eq_true]
    intro e he
    rw [List.mem_map] at he
    obtain ⟨q, _, rfl⟩ := he
    exact perPairEval_exactlyOne calcFn q
  · induction pairs with
    | nil => rfl
    | cons a t ih => simp [perPairEval_key, ih]
  · simp [perPairEval, hv, hnp]
  · cases v <;> simp_all [PyVal.isNpNumber, PyVal.toPyFloat, PyVal.isPyFloat]

/-- Witness for the amended C6 at a concrete numpy-int return. -/
theorem handler_entry_shape_witness :
    (fun _ : Pair => CallOutcome.returns (.npInt 7))
        (⟨[], [], some ("k")⟩ : Pair) = .returns (.npInt 7) ∧
    (PyVal.npInt 7).isNpNumber = true ∧
    (handler .ok true (fun _ : Pair => CallOutcome.returns (.npInt 7)) ("c")
        [⟨[], [], some ("k")⟩]
      = .results ([⟨[], [], some ("k")⟩].map
          (perPairEval (fun _ : Pair => CallOutcome.returns (.npInt 7)))) ∧
    ([⟨[], [], some ("k")⟩].map
        (perPairEval (fun _ : Pair => CallOutcome.returns (.npInt 7)))).all
      (fun e => (e.result.isSome && e.error.isNone) ||
        (e.result.isNone && e.error.isSome)) = true ∧
    (([⟨[], [], some ("k")⟩].map
        (perPairEval (fun _ : Pair => CallOutcome.returns (.npInt 7)))).map
      (fun e => e.key))
      = [⟨[], [], some ("k")⟩].map (fun q : Pair => q.key) ∧
    (perPairEval (fun _ : Pair => CallOutcome.returns (.npInt 7))
        ⟨[], [], some ("k")⟩).result = some (PyVal.npInt 7).toPyFloat ∧
    (PyVal.npInt 7).toPyFloat.isPyFloat = true) :=
  ⟨rfl, rfl,
   handler_entry_shape (fun _ => CallOutcome.returns (.npInt 7)) ("c")
     [⟨[], [], some ("k")⟩] ⟨[], [], some ("k")⟩ (.npInt 7) rfl rfl⟩

/-- C7: any code containing a denylisted substring (case-insensitively) is
rejected with a non-empty error, and the minimal
`def calculate(series1, series2): return 0` (assuming Python accepts its
syntax, which it does) validates. -/
theorem validate_denylist_and_minimal (pyCompile : String → Option String)
    (code : String) (p : String) (hp : p ∈ dangerous_patterns)
    (hmatch : containsSubstr (strToLower p) (strToLower code) = true)
    (hmin : pyCompile ("def calculate(series1, series2): return 0") = none) :
    (validate_plugin_code pyCompile code).valid = false ∧
    (validate_plugin_code pyCompile code).error.getD ("") ≠ "" ∧
    validate_plugin_code pyCompile
      ("def calculate(series1, series2): return 0") = ⟨true, none⟩ := by
  have hfind : ∃ q, dangerous_patterns.find?
      (fun q => containsSubstr (strToLower q) (strToLower code)) = some q := by
    cases hf : dangerous_patterns.find?
        (fun q => containsSubstr (strToLower q) (strToLower code)) with
    | none =>
      rw [List.find?_eq_none] at hf
      exact absurd hmatch (by simpa using hf p hp)
    | some q => exact ⟨q, rfl⟩
  obtain ⟨q, hq⟩ := hfind
  refine ⟨by simp [validate_plugin_code, hq], ?_, ?_⟩
  · have hres : validate_plugin_code pyCompile code
        = ⟨false, some (forbiddenDetectedMsg q)⟩ := by
      simp [validate_plugin_code, hq]
    rw [hres]
    show forbiddenDetectedMsg q ≠ ""
    intro h
    have hlen := congrArg String.length h
    simp only [forbiddenDetectedMsg, String.length_append] at hlen
    have h1 : ("Forbidden pattern detected: \x27" : String).length = 29 := rfl
    have h2 :
        ("\x27. Plugins cannot access system resources." : String).length = 42 :=
      rfl
    have h3 : ("" : String).length = 0 := rfl
    omega
  · have h1 : dangerous_patterns.find? (fun q => containsSubstr (strToLower q)
        (strToLower ("def calculate(series1, series2): return 0"))) = none := by
      decide
    have h2 : containsSubstr ("def calculate(")
        ("def calculate(series1, series2): return 0") = true := by decide
    simp [validate_plugin_code, h1, h2, hmin]

/-- Witness for C7: the spec's concrete scenario `import os\n...` plus the
minimal accepted plugin. -/
theorem validate_denylist_and_minimal_witness :
    ("import os" : String) ∈ dangerous_patterns ∧
    containsSubstr (strToLower ("import os"))
      (strToLower ("import os\ndef calculate(s1,s2): return 0")) = true ∧
    (fun _ : String => (none : Option String))
      ("def calculate(series1, series2): return 0") = none ∧
    ((validate_plugin_code (fun _ => none)
        ("import os\ndef calculate(s1,s2): return 0")).valid = false ∧
    (validate_plugin_code (fun _ => none)
        ("import os\ndef calculate(s1,s2): return 0")).error.getD ("") ≠ "" ∧
    validate_plugin_code (fun _ => none)
      ("def calculate(series1, series2): return 0") = ⟨true, none⟩) :=
  ⟨by decide, by decide, rfl,
   validate_denylist_and_minimal (fun _ => none)
     ("import os\ndef calculate(s1,s2): return 0") ("import os")
     (by decide) (by decide) rfl⟩

/-- C8 counterexample: the denylist-free, unparseable code `x +` is rejected
with the missing-entry-point message, not with a syntax-error message — the
`def calculate(` check runs before `compile`, so a parse failure is only ever
reported for code that declares the entry point. -/
theorem validate_order_counterexample :
    (dangerous_patterns.all
      (fun q => !(containsSubstr (strToLower q) (strToLower ("x +"))))) = true ∧
    (fun _ : String => some ("invalid syntax")) ("x +")
      = some ("invalid syntax") ∧
    validate_plugin_code (fun _ => some ("invalid syntax")) ("x +")
      = ⟨false, some missingEntryMsg⟩ ∧
    missingEntryMsg ≠ syntaxErrorMsg ("invalid syntax") :=
  ⟨by decide, rfl, by decide, by decide⟩

/-- C8 (amended): the denylist is checked before parsing and short-circuits on
the first matching pattern — its message is returned whatever the compile
oracle says, so also for code with a syntax error; a denylist-free code string
that declares `def calculate(` and fails to parse is reported with the
syntax-error message, which differs from every denylist-rejection message
(code without `def calculate(` instead gets the missing-entry-point message
before any parse). -/
theorem validate_denylist_before_parse (pyCompile pyCompile2 : String → Option String)
    (code code2 p e : String)
    (hfirst : dangerous_patterns.find?
      (fun q => containsSubstr (strToLower q) (strToLower code)) = some p)
    (hfree : dangerous_patterns.all
      (fun q => !(containsSubstr (strToLower q) (strToLower code2))) = true)
    (hdef : containsSubstr ("def calculate(") code2 = true)
    (hparse : pyCompile2 code2 = some e) :
    validate_plugin_code pyCompile code
      = ⟨false, some (forbiddenDetectedMsg p)⟩ ∧
    validate_plugin_code pyCompile2 code2
      = ⟨false, some (syntaxErrorMsg e)⟩ ∧
    syntaxErrorMsg e ≠ forbiddenDetectedMsg p := by
  refine ⟨by simp [validate_plugin_code, hfirst], ?_, ?_⟩
  · have hnone : dangerous_patterns.find?
        (fun q => containsSubstr (strToLower q) (strToLower code2)) = none := by
      rw [List.find?_eq_none]
      intro x hx
      have := (List.all_eq_true.mp hfree) x hx
      simpa using this
    simp [validate_plugin_code, hnone, hdef, hparse]
  · apply strNeOfHead
    have hs : (syntaxErrorMsg e).data.head? = some ('S') := by
      have : (syntaxErrorMsg e).data
          = ("Syntax error in plugin code: " : String).data ++ e.data := by
        simp only [syntaxErrorMsg]
        rfl
      rw [this]
      rfl
    have hf : (forbiddenDetectedMsg p).data.head? = some ('F') := by
      have : (forbiddenDetectedMsg p).data
          = ("Forbidden pattern detected: \x27" : String).data ++
            (p ++ ("\x27. Plugins cannot access system resources.")).data := by
        simp only [forbiddenDetectedMsg]
        cases p
        rfl
      rw [this]
      rfl
    rw [hs, hf]
    decide

/-- Witness for the amended C8: `import os` code with a syntax error is still
reported as a denylist hit; parseable-entry-point code `def calculate(:` with
a syntax error is reported as a syntax error. -/
theorem validate_denylist_before_parse_witness :
    dangerous_patterns.find? (fun q => containsSubstr (strToLower q)
        (strToLower ("import os\ndef calculate(:"))) = some ("import os") ∧
    (dangerous_patterns.all (fun q => !(containsSubstr (strToLower q)
        (strToLower ("def calculate(series1, series2): return ("))))) = true ∧
    containsSubstr ("def calculate(")
      ("def calculate(series1, series2): return (") = true ∧
    (fun _ : String => some ("unexpected EOF"))
      ("def calculate(series1, series2): return (") = some ("unexpected EOF") ∧
    (validate_plugin_code (fun _ => some ("syntax oracle"))
        ("import os\ndef calculate(:")
      = ⟨false, some (forbiddenDetectedMsg ("import os"))⟩ ∧
    validate_plugin_code (fun _ => some ("unexpected EOF"))
        ("def calculate(series1, series2): return (")
      = ⟨false, some (syntaxErrorMsg ("unexpected EOF"))⟩ ∧
    syntaxErrorMsg ("unexpected EOF") ≠ forbiddenDetectedMsg ("import os")) :=
  ⟨by decide, by decide, by decide, rfl,
   validate_denylist_before_parse (fun _ => some ("syntax oracle"))
     (fun _ => some ("unexpected EOF")) ("import os\ndef calculate(:")
     ("def calculate(series1, series2): return (") ("import os")
     ("unexpected EOF") (by decide) (by decide) (by decide) rfl⟩

/-- C9: code that fails validation is answered synchronously with the
validation error and the sandboxed executor is never invoked — the response
is the same whatever executor is plugged in, and equals the validation-error
dict. -/
theorem execute_plugin_code_invalid_short_circuits
    (pyCompile : String → Option String)
    (executor executor2 : String → SeriesD → SeriesD → Except PyExn PyOut)
    (code : String) (series1 series2 : SeriesD)
    (hinvalid : (validate_plugin_code pyCompile code).valid = false) :
    execute_plugin_code pyCompile executor code series1 series2
      = .ok (.errorDict
          ((validate_plugin_code pyCompile code).error.getD (""))) ∧
    execute_plugin_code pyCompile executor code series1 series2
      = execute_plugin_code pyCompile executor2 code series1 series2 := by
  constructor <;> simp [execute_plugin_code, hinvalid]

/-- Witness for C9: the `import os` scenario, with two executors that would
answer differently if ever consulted. -/
theorem execute_plugin_code_invalid_short_circuits_witness :
    (validate_plugin_code (fun _ => none)
      ("import os\ndef calculate(s1,s2): return 0")).valid = false ∧
    (execute_plugin_code (fun _ => none)
        (fun _ _ _ => .ok (.resultDict (.pyFloat 42)))
        ("import os\ndef calculate(s1,s2): return 0") [] []
      = .ok (.errorDict ((validate_plugin_code (fun _ => none)
          ("import os\ndef calculate(s1,s2): return 0")).error.getD (""))) ∧
    execute_plugin_code (fun _ => none)
        (fun _ _ _ => .ok (.resultDict (.pyFloat 42)))
        ("import os\ndef calculate(s1,s2): return 0") [] []
      = execute_plugin_code (fun _ => none)
          (fun _ _ _ => .error ⟨"kaboom"⟩)
          ("import os\ndef calculate(s1,s2): return 0") [] []) :=
  ⟨by decide,
   execute_plugin_code_invalid_short_circuits (fun _ => none)
     (fun _ _ _ => .ok (.resultDict (.pyFloat 42)))
     (fun _ _ _ => .error ⟨"kaboom"⟩)
     ("import os\ndef calculate(s1,s2): return 0") [] [] (by decide)⟩

/-- Truth value of "the call returned a value (no exception escaped)". -/
def returnsValue : Except PyExn PyOut → Bool
  | .ok _ => true
  | .error _ => false

/-- C1 (code bug): with Docker unavailable (probe failed) and no remote
target, `execute` does NOT return an unavailable error — it falls back to
`_execute_restricted`/`_execute_basic_sandbox`, runs the untrusted code in
the calling process, and returns the plugin's own result.  Here the plugin
`def calculate(series1, series2): return 0` is executed in-process (the
basic-sandbox path: RestrictedPython absent, exec succeeds, `calculate`
returns the Python int 0) and `execute` answers with the plugin's value
`0.0` instead of any error dict.  The repository's own test suite
(`test_execute_docker_unavailable`) asserts the fail-closed behaviour the
claim states, which this code contradicts. -/
theorem execute_unavailable_runs_in_process :
    SandboxedExecutor.execute ⟨false⟩
      ⟨.completed ⟨0, "", ""⟩, none, fun _ => true⟩
      ⟨false, none, .ok, true, .returns (.pyInt 0), .ok, true,
        .returns (.pyInt 0)⟩
      ("def calculate(series1, series2): return 0") [] []
      = .ok (.resultDict (.pyFloat 0)) :=
  rfl

/-- C4 counterexample: a run that expires its wall-clock timeout does NOT
always come back as the timed-out error dict — when `os.unlink` of the
temporary executor script raises in the `finally` block, that exception
replaces the caught timeout's return value and escapes `execute` (Python
`finally` semantics), so the caller sees a propagated exception rather than
`{error: "...timed out..."}`, refuting the claim as universally stated. -/
theorem execute_timeout_cleanup_failure_counterexample :
    SandboxedExecutor.execute ⟨true⟩
      ⟨.timeoutExpired, some ("FileNotFoundError"), fun _ => true⟩
      ⟨true, none, .ok, true, .returns (.pyInt 0), .ok, true,
        .returns (.pyInt 0)⟩
      ("def calculate(series1, series2): return 0") [] []
      = .error ⟨"FileNotFoundError"⟩ ∧
    returnsValue
      (SandboxedExecutor.execute ⟨true⟩
        ⟨.timeoutExpired, some ("FileNotFoundError"), fun _ => true⟩
        ⟨true, none, .ok, true, .returns (.pyInt 0), .ok, true,
          .returns (.pyInt 0)⟩
        ("def calculate(series1, series2): return 0") [] []) = false :=
  ⟨rfl, rfl⟩

/-- C4 (amended): a Docker batch whose `subprocess.run` expires its
wall-clock timeout is answered with the timed-out error dict — an error-only
response with no partial results — and the timeout is caught, not propagated
as an exception, provided the `finally`-block removal of the temporary
executor script succeeds; if that cleanup raises, its exception propagates
instead (see the counterexample). -/
theorem execute_timeout_returns_error (st : ExecutorState) (denv : DockerEnv)
    (renv : RestrictedEnv) (code : String) (series1 series2 : SeriesD)
    (hd : st.docker_available = true)
    (ht : denv.runOutcome = .timeoutExpired)
    (hu : denv.unlinkError = none) :
    SandboxedExecutor.execute st denv renv code series1 series2
      = .ok (.errorDict timeoutMsg) ∧
    containsSubstr ("timed out") timeoutMsg = true := by
  refine ⟨?_, by decide⟩
  simp [SandboxedExecutor.execute, hd, SandboxedExecutor._execute_in_docker,
    hu, dockerTryBody, ht]

/-- Witness for C4 at a concrete timed-out environment. -/
theorem execute_timeout_returns_error_witness :
    (⟨true⟩ : ExecutorState).docker_available = true ∧
    (⟨.timeoutExpired, none, fun _ => true⟩ : DockerEnv).runOutcome
      = .timeoutExpired ∧
    (⟨.timeoutExpired, none, fun _ => true⟩ : DockerEnv).unlinkError = none ∧
    (SandboxedExecutor.execute ⟨true⟩ ⟨.timeoutExpired, none, fun _ => true⟩
        ⟨true, none, .ok, true, .returns (.pyInt 0), .ok, true,
          .returns (.pyInt 0)⟩
        ("def calculate(s1, s2): return 0") [] []
      = .ok (.errorDict timeoutMsg) ∧
    containsSubstr ("timed out") timeoutMsg = true) :=
  ⟨rfl, rfl, rfl,
   execute_timeout_returns_error ⟨true⟩ ⟨.timeoutExpired, none, fun _ => true⟩
     ⟨true, none, .ok, true, .returns (.pyInt 0), .ok, true,
       .returns (.pyInt 0)⟩
     ("def calculate(s1, s2): return 0") [] [] rfl rfl rfl⟩

/-- C5 counterexample: a run that completes successfully still propagates an
exception out of `execute` when `os.unlink` of the temporary executor script
raises in the `finally` block — a cleanup failure IS fatal to the caller,
contradicting the claim that no failure path propagates. -/
theorem execute_cleanup_failure_is_fatal :
    SandboxedExecutor.execute ⟨true⟩
      ⟨.completed ⟨0, "ignored", ""⟩, some ("FileNotFoundError"),
        fun _ => true⟩
      ⟨true, none, .ok, true, .returns (.pyInt 0), .ok, true,
        .returns (.pyInt 0)⟩
      ("def calculate(series1, series2): return 1") [] []
      = .error ⟨"FileNotFoundError"⟩ :=
  rfl

/-- C5 (amended): provided the `finally`-block removal of the temporary
executor script succeeds, every path through `execute` — spawn failure,
timeout, non-zero exit, empty or malformed output, and the whole in-process
fallback — terminates in a returned value; but a cleanup failure propagates
(see the counterexample). -/
theorem execute_total_when_cleanup_ok (st : ExecutorState) (denv : DockerEnv)
    (renv : RestrictedEnv) (code : String) (series1 series2 : SeriesD)
    (hu : denv.unlinkError = none) :
    returnsValue
      (SandboxedExecutor.execute st denv renv code series1 series2) = true := by
  by_cases hd : st.docker_available
  · simp [SandboxedExecutor.execute, hd, SandboxedExecutor._execute_in_docker,
      hu, returnsValue]
  · simp [SandboxedExecutor.execute, hd, returnsValue]

/-- Witness for the amended C5 at a concrete spawning-failure environment. -/
theorem execute_total_when_cleanup_ok_witness :
    (⟨.raised ("OSError"), none, fun _ => false⟩ : DockerEnv).unlinkError
      = none ∧
    returnsValue
      (SandboxedExecutor.execute ⟨true⟩
        ⟨.raised ("OSError"), none, fun _ => false⟩
        ⟨false, none, .ok, true, .returns (.pyInt 0), .ok, true,
          .returns (.pyInt 0)⟩
        ("def calculate(s1, s2): return 0") [] []) = true :=
  ⟨rfl,
   execute_total_when_cleanup_ok ⟨true⟩
     ⟨.raised ("OSError"), none, fun _ => false⟩
     ⟨false, none, .ok, true, .returns (.pyInt 0), .ok, true,
       .returns (.pyInt 0)⟩
     ("def calculate(s1, s2): return 0") [] [] rfl⟩

/-- Timestamps surviving the keep-first dedup are exactly the input
timestamps not already seen. -/
theorem dedupKeepFirst_mem_fst (l : List (Int × Rat)) :
    ∀ (seen : List Int) (t : Int),
      (t ∈ (dedupKeepFirst l seen).map Prod.fst)
        ↔ (t ∈ l.map Prod.fst ∧ t ∉ seen) := by
  induction l with
  | nil => intro seen t; simp [dedupKeepFirst]
  | cons a rest ih =>
    intro seen t
    by_cases h : a.1 ∈ seen
    · simp only [dedupKeepFirst, if_pos h, ih, List.map_cons, List.mem_cons]
      constructor
      · rintro ⟨hmem, hns⟩
        exact ⟨Or.inr hmem, hns⟩
      · rintro ⟨hor, hns⟩
        cases hor with
        | inl he => exact absurd (he ▸ h) hns
        | inr hm => exact ⟨hm, hns⟩
    · simp only [dedupKeepFirst, if_neg h, List.map_cons, List.mem_cons, ih]
      by_cases he : t = a.1
      · subst he
        simp [h]
      · simp [he]

/-- The timestamp column after the keep-first dedup has no duplicates. -/
theorem dedupKeepFirst_fst_nodup (l : List (Int × Rat)) :
    ∀ seen : List Int, ((dedupKeepFirst l seen).map Prod.fst).Nodup := by
  induction l with
  | nil => intro seen; simp [dedupKeepFirst]
  | cons a rest ih =>
    intro seen
    by_cases h : a.1 ∈ seen
    · simpa [dedupKeepFirst, h] using ih seen
    · simp only [dedupKeepFirst, if_neg h, List.map_cons, List.nodup_cons]
      refine ⟨?_, ih _⟩
      intro hmem
      have := (dedupKeepFirst_mem_fst rest (a.1 :: seen) a.1).mp hmem
      exact this.2 (List.mem_cons_self _ _)

/-- The frame built for one series has exactly one row per distinct parsed
timestamp: its length is the number of distinct timestamps of the series. -/
theorem seriesFrame_length (toDT : String → Int) (s : SeriesD) :
    (seriesFrame toDT s).length
      = ((s.map (fun kv => toDT kv.1)).dedup).length := by
  classical
  set l := List.insertionSort (fun a b : Int × Rat => a.1 ≤ b.1)
    (s.map (fun kv => (toDT kv.1, kv.2))) with hl
  have hnd : ((dedupKeepFirst l []).map Prod.fst).Nodup :=
    dedupKeepFirst_fst_nodup l []
  have hlen : (seriesFrame toDT s).length
      = ((dedupKeepFirst l []).map Prod.fst).length := by
    simp [seriesFrame, hl]
  have hfin : ((dedupKeepFirst l []).map Prod.fst).toFinset
      = (l.map Prod.fst).toFinset := by
    ext t
    simp [List.mem_toFinset, dedupKeepFirst_mem_fst l [] t]
  have hperm : (l.map Prod.fst).Perm
      ((s.map (fun kv => (toDT kv.1, kv.2))).map Prod.fst) :=
    (List.perm_insertionSort _ _).map _
  have hfin2 : (l.map Prod.fst).toFinset
      = ((s.map (fun kv => (toDT kv.1, kv.2))).map Prod.fst).toFinset := by
    ext t
    simp [List.mem_toFinset, hperm.mem_iff]
  have hmapmap : ((s.map (fun kv => (toDT kv.1, kv.2))).map Prod.fst)
      = s.map (fun kv => toDT kv.1) := by
    simp [List.map_map]
  calc (seriesFrame toDT s).length
      = ((dedupKeepFirst l []).map Prod.fst).toFinset.card := by
        rw [hlen, List.toFinset_card_of_nodup hnd]
    _ = (s.map (fun kv => toDT kv.1)).toFinset.card := by
        rw [hfin, hfin2, hmapmap]
    _ = ((s.map (fun kv => toDT kv.1)).dedup).length := List.card_toFinset _

/-- C10: when each input series has fewer than two distinct timestamps
(distinct-count at most one, counted after `pd.to_datetime` parsing and
deduplication), `get_aligned_data` with `tolerance=None` returns the empty
frame — neither index has more than one point, so no tolerance candidate is
derived and the function returns early, even when both series share an
identical timestamp. -/
theorem get_aligned_data_empty_of_few_timestamps (toDT : String → Int)
    (series1 series2 : SeriesD)
    (h1 : ((series1.map (fun kv => toDT kv.1)).dedup).length ≤ 1)
    (h2 : ((series2.map (fun kv => toDT kv.1)).dedup).length ≤ 1) :
    get_aligned_data toDT series1 series2 none = [] := by
  have e1 : (seriesFrame toDT series1).length ≤ 1 := by
    rw [seriesFrame_length]; exact h1
  have e2 : (seriesFrame toDT series2).length ≤ 1 := by
    rw [seriesFrame_length]; exact h2
  have hd : autoDeltas (seriesFrame toDT series1) (seriesFrame toDT series2)
      = [] := by
    unfold autoDeltas
    rw [if_neg (by omega), if_neg (by omega)]
    rfl
  simp [get_aligned_data, hd]

/-- Witness for C10: two one-point series sharing the identical timestamp
still align to the empty frame. -/
theorem get_aligned_data_empty_witness :
    ((([("2024-01-01", 1)] : SeriesD).map
      (fun kv => (fun _ => (0 : Int)) kv.1)).dedup).length ≤ 1 ∧
    ((([("2024-01-01", 2)] : SeriesD).map
      (fun kv => (fun _ => (0 : Int)) kv.1)).dedup).length ≤ 1 ∧
    get_aligned_data (fun _ => (0 : Int))
      [("2024-01-01", 1)] [("2024-01-01", 2)] none = [] :=
  ⟨by decide, by decide,
   get_aligned_data_empty_of_few_timestamps (fun _ => (0 : Int))
     [("2024-01-01", 1)] [("2024-01-01", 2)] (by decide) (by decide)⟩
